import Mathlib

/-!
Verification of `ships.py`, a scraper that extracts a ship attribute table
from a wiki page and downloads per-ship view images.

The Python source is shallowly embedded: pure helpers become Lean functions,
Python exceptions become an explicit `PyErr` error type threaded through
`Except`, HTML elements become structures carrying exactly the attributes the
code reads, and network fetches are modelled as data already present on the
embedded page structures.  Python floats are modelled as `Rat` via a decimal
parser covering the numeric strings the table carries (exponent and inf/nan
forms of `float()` are immaterial to the extraction logic verified here).
-/

/-- Python exception kinds raised by the paths modelled here: `KeyError` from
`tag["attr"]` on a missing attribute or `dict[key]` on a missing key,
`ValueError` from `float()` on a bad literal or from a mismatched extended
slice assignment, `TypeError` from subscripting `None`, `AttributeError` from
calling a method on `None`. -/
inductive PyErr where
  | keyError
  | valueError
  | typeError
  | attributeError
deriving DecidableEq

/-- Embeds `view_fault_tolerance` (ships.py lines 194-202): corrects the two
known server-side typos of "Isometric" and passes everything else through. -/
def view_fault_tolerance (view : String) : String :=
  if view = "Isometirc" then "Isometric"
  else if view = "Isometrric" then "Isometric"
  else view

/-- Embeds the download gate `if overwrite or not os.path.isfile(img_path)`
(ships.py line 252); `fileExists` is the result of the `os.path.isfile` probe
on the image path. -/
def should_download (overwrite fileExists : Bool) : Bool :=
  overwrite || !fileExists

/-- Embeds `os.path.basename`: the part of the path after the last slash. -/
def basename (p : String) : String :=
  String.mk (p.data.foldl (fun acc c => if c = '/' then [] else acc ++ [c]) [])

/-- Kernel-computable model of `String.startsWith`. -/
def str_starts_with (s pre : String) : Bool :=
  pre.data.isPrefixOf s.data

/-- Kernel-computable model of `String.endsWith`. -/
def str_ends_with (s suf : String) : Bool :=
  suf.data.reverse.isPrefixOf s.data.reverse

/-- Embeds `os.path.join` for one component, as CPython computes it on posix:
an absolute second component replaces the first, otherwise the two are joined
with a single slash. -/
def path_join (a b : String) : String :=
  if str_starts_with b "/" then b
  else if a = "" then b
  else if str_ends_with a "/" then a ++ b
  else a ++ "/" ++ b

/-- Embeds ships.py line 210: the first statement of `download_images`
reassigns the `destination` parameter to the constant `"data/images"`, so the
caller-supplied directory is discarded before any path is built. -/
def download_images_destination (_destination : String) : String :=
  "data/images"

/-- Embeds ships.py lines 236-239: the on-disk path for one image source is
the (shadowed) destination joined with the basename of the source URL; the
same path is used both for the `os.path.isfile` existence probe and as the
download target. -/
def download_images_image_path (destination img_src : String) : String :=
  path_join (download_images_destination destination) (basename img_src)

/-- The list produced by the two Python slice assignments
`all_rows[::2] = odd_rows; all_rows[1::2] = even_rows` when their length
preconditions hold: odd rows occupy the even indices in order, even rows the
odd indices. -/
def interleave {α : Type} : List α → List α → List α
  | [], ys => ys
  | x :: xs, [] => x :: xs
  | x :: xs, y :: ys => x :: y :: interleave xs ys

/-- Embeds `extract_rows` (ships.py lines 133-149) after the per-row cell
extraction: `odd_rows` and `even_rows` are the records extracted from the
`tr.row-odd` and `tr.row-even` elements in document order.  A Python extended
slice assignment raises `ValueError` unless the assigned sequence's length
equals the number of slice positions: `all_rows[::2]` has
`ceil(total / 2)` positions and `all_rows[1::2]` has `floor(total / 2)`. -/
def extract_rows {α : Type} (odd_rows even_rows : List α) : Except PyErr (List α) :=
  let total := even_rows.length + odd_rows.length
  if odd_rows.length = (total + 1) / 2 then
    if even_rows.length = total / 2 then
      Except.ok (interleave odd_rows even_rows)
    else Except.error PyErr.valueError
  else Except.error PyErr.valueError

/-- Python's ASCII whitespace class `\s` as `re` matches it on these pages. -/
def isPySpace (c : Char) : Bool :=
  c == ' ' || c == '\t' || c == '\n' || c == '\r' || c == '\x0b' || c == '\x0c'

/-- The character class `[\s|-]` of the compiled pattern `In[\s|-]space`
(ships.py line 47): a whitespace character, a literal '|', or a literal '-'. -/
def inSpaceSep (c : Char) : Bool :=
  isPySpace c || c == '|' || c == '-'

/-- Matches the regex `In[\s|-]space` anchored at the head of a character
list. -/
def matchInSpaceAt : List Char → Bool
  | 'I' :: 'n' :: c :: 's' :: 'p' :: 'a' :: 'c' :: 'e' :: _ => inSpaceSep c
  | _ => false

/-- Embeds `re.search` of the compiled pattern `In[\s|-]space` over a string,
as bs4 applies it to the candidate `data-title` attribute values: true when
the pattern matches at any position. -/
def inSpaceSearch (s : String) : Bool :=
  s.data.tails.any matchInSpaceAt

/-- A `figure[typeof="mw:File/Frameless"]` element of the in-space panel.
`src` is the final raw image URL: the source follows the figure's link to a
media page and reads its `a.internal` href; that network round trip is
modelled as data already resolved on the figure. -/
structure Figure where
  src : String
deriving DecidableEq

/-- An `article` element inside the sibling table/tab container, carrying its
`data-title` attribute and its frameless figures. -/
structure Article where
  dataTitle : String
  figures : List Figure
deriving DecidableEq

/-- A ship detail page as `get_in_space_image_src` reads it:
`shipProfileAnchor` records whether `span#Ship_profile` exists, and
`tableWrap` is the following sibling `div.tabber` / `div.citizen-table-wrapper`
(when present) with its article sub-panels. -/
structure ShipPage where
  shipProfileAnchor : Bool
  tableWrap : Option (List Article)
deriving DecidableEq

/-- Embeds the `find("article", attrs={"data-title": re.compile(...)})` step:
the first article whose `data-title` the pattern matches, if any. -/
def find_in_space_article (arts : List Article) : Option Article :=
  arts.find? (fun a => inSpaceSearch a.dataTitle)

/-- Embeds `get_in_space_image_src` (ships.py lines 22-63).  Without the
anchor it returns Python `None`.  With the anchor, a missing sibling container
makes `.find` explode on `None` with AttributeError, which the source catches
and turns into `img_table = None`; a present container without a matching
article gives `img_table = None` directly; both yield `srcs = []`.  A found
article yields its figures' resolved sources. -/
def get_in_space_image_src (page : ShipPage) : Option (List String) :=
  if page.shipProfileAnchor then
    let img_table :=
      match page.tableWrap with
      | none => none
      | some arts => find_in_space_article arts
    match img_table with
    | none => some []
    | some art => some (art.figures.map Figure.src)
  else none

/-- The lookahead `(?=\.jpg|\.png)` of the filename pattern (ships.py line
223): the remaining input begins with ".jpg" or ".png". -/
def extFollows : List Char → Bool
  | '.' :: 'j' :: 'p' :: 'g' :: _ => true
  | '.' :: 'p' :: 'n' :: 'g' :: _ => true
  | _ => false

/-- Matches `([A-Za-z])+(?=\.jpg|\.png)` at the head of a character list: the
greedy run of ASCII letters, accepted when the lookahead holds right after it
(backtracking inside the run cannot help, since the lookahead needs a '.'
where a letter stands). -/
def matchRunAt (cs : List Char) : Option (List Char) :=
  let run := cs.takeWhile Char.isAlpha
  let rest := cs.dropWhile Char.isAlpha
  if run.isEmpty then none
  else if extFollows rest then some run
  else none

/-- Embeds `pattern.search(img_path)[0]` for the filename pattern: the
leftmost match, scanning every start position in order.  A start inside a
letter run matches exactly when the run start does, so the first successful
tail is the leftmost regex match. -/
def viewToken (path : String) : Option String :=
  ((path.data.tails.filterMap matchRunAt).head?).map String.mk

/-- One row of the `img_data` table (ships.py lines 213-221): the key column
`Name` (holding the ship name) and the six view-category filename columns. -/
structure ImgRecord where
  name : Option String
  isometric : Option String
  above : Option String
  port : Option String
  front : Option String
  rear : Option String
  below : Option String
deriving DecidableEq

/-- Embeds `img_data[view][idx] = os.path.basename(img_path)` (ships.py line
248): indexing the dict with a key outside its seven keys raises KeyError,
which the source prints context for and re-raises. -/
def store_image_view (r : ImgRecord) (view fname : String) : Except PyErr ImgRecord :=
  if view = "Name" then Except.ok { r with name := some fname }
  else if view = "Isometric" then Except.ok { r with isometric := some fname }
  else if view = "Above" then Except.ok { r with above := some fname }
  else if view = "Port" then Except.ok { r with port := some fname }
  else if view = "Front" then Except.ok { r with front := some fname }
  else if view = "Rear" then Except.ok { r with rear := some fname }
  else if view = "Below" then Except.ok { r with below := some fname }
  else Except.error PyErr.keyError

/-- Embeds the per-image body of the download loop (ships.py lines 241-253)
for one image source: build the target path, search the view-token pattern
(no match: the image is thrown away), correct typos, store the basename under
the token's column (KeyError propagates), then fetch the file when `overwrite`
is set or the `os.path.isfile` probe (`fileExists`) is negative.  The result
carries the updated record and the number of network fetches performed. -/
def process_image (r : ImgRecord) (destination img_src : String)
    (overwrite fileExists : Bool) : Except PyErr (ImgRecord × Nat) :=
  let img_path := download_images_image_path destination img_src
  match viewToken img_path with
  | none => Except.ok (r, 0)
  | some m =>
    match store_image_view r (view_fault_tolerance m) (basename img_path) with
    | Except.error e => Except.error e
    | Except.ok r2 =>
      Except.ok (r2, if should_download overwrite fileExists then 1 else 0)

/-- A `td` cell element, carrying its optional `data-sort-value` attribute. -/
structure Td where
  sortValue : Option String
deriving DecidableEq

/-- One `tr` row element of the ships table, as the numeric cell extractors
read it: each field is the `td` of the named class, when present. -/
structure ShipRow where
  length : Option Td
  width : Option Td
  height : Option Td
  maxSpeed : Option Td
  scmSpeed : Option Td
  zeroScmTime : Option Td
deriving DecidableEq

/-- Embeds `row_element.find("td", cls)["data-sort-value"]`: subscripting the
`None` of a failed find raises TypeError; a found tag without the attribute
raises KeyError. -/
def getSortValue (td : Option Td) : Except PyErr String :=
  match td with
  | none => Except.error PyErr.typeError
  | some t =>
    match t.sortValue with
    | none => Except.error PyErr.keyError
    | some v => Except.ok v

/-- The natural number denoted by a run of decimal digits. -/
def digitsToNat (cs : List Char) : Nat :=
  cs.foldl (fun a c => a * 10 + (c.toNat - 48)) 0

/-- Embeds Python `float()` on the plain decimal literals the sort-value
attributes carry: optional sign, integer digits, optional fraction; anything
else raises ValueError.  (Exponent, inf and nan forms never occur in this
data and are immaterial here.) -/
def parse_float (s : String) : Except PyErr Rat :=
  let signed : Bool × List Char :=
    match s.data with
    | '-' :: r => (true, r)
    | '+' :: r => (false, r)
    | _ => (false, s.data)
  let intPart := signed.2.takeWhile Char.isDigit
  let rest := signed.2.dropWhile Char.isDigit
  let mag : Except PyErr Rat :=
    match rest with
    | [] =>
      if intPart.isEmpty then Except.error PyErr.valueError
      else Except.ok (digitsToNat intPart : Rat)
    | '.' :: fracTail =>
      let fracPart := fracTail.takeWhile Char.isDigit
      if !(fracTail.dropWhile Char.isDigit).isEmpty then Except.error PyErr.valueError
      else if intPart.isEmpty && fracPart.isEmpty then Except.error PyErr.valueError
      else Except.ok ((digitsToNat intPart : Rat) +
        (digitsToNat fracPart : Rat) / ((10 : Rat) ^ fracPart.length))
    | _ => Except.error PyErr.valueError
  match mag with
  | Except.error e => Except.error e
  | Except.ok v => Except.ok (if signed.1 then -v else v)

/-- Embeds `extract_cell_Length` (ships.py lines 90-91): no exception
handling, the attribute value parsed as a float. -/
def extract_cell_Length (row : ShipRow) : Except PyErr Rat :=
  match getSortValue row.length with
  | Except.error e => Except.error e
  | Except.ok v => parse_float v

/-- Embeds `extract_cell_Width` (ships.py lines 94-95). -/
def extract_cell_Width (row : ShipRow) : Except PyErr Rat :=
  match getSortValue row.width with
  | Except.error e => Except.error e
  | Except.ok v => parse_float v

/-- Embeds `extract_cell_Height` (ships.py lines 98-99). -/
def extract_cell_Height (row : ShipRow) : Except PyErr Rat :=
  match getSortValue row.height with
  | Except.error e => Except.error e
  | Except.ok v => parse_float v

/-- Embeds `extract_cell_Max_speed` (ships.py lines 102-106): the KeyError of
a missing attribute is caught and turned into the sentinel -1; every other
exception (TypeError of a missing cell, ValueError of `float`) propagates. -/
def extract_cell_Max_speed (row : ShipRow) : Except PyErr Rat :=
  match getSortValue row.maxSpeed with
  | Except.error PyErr.keyError => Except.ok (-1)
  | Except.error e => Except.error e
  | Except.ok v => parse_float v

/-- Embeds `extract_cell_SCM_speed` (ships.py lines 109-113). -/
def extract_cell_SCM_speed (row : ShipRow) : Except PyErr Rat :=
  match getSortValue row.scmSpeed with
  | Except.error PyErr.keyError => Except.ok (-1)
  | Except.error e => Except.error e
  | Except.ok v => parse_float v

/-- Embeds `extract_cell_0_SCM_time` (ships.py lines 116-120). -/
def extract_cell_0_SCM_time (row : ShipRow) : Except PyErr Rat :=
  match getSortValue row.zeroScmTime with
  | Except.error PyErr.keyError => Except.ok (-1)
  | Except.error e => Except.error e
  | Except.ok v => parse_float v

/-- Claim C7: `view_fault_tolerance` is idempotent, fixes the six canonical
view tokens, maps the two known typos "Isometirc" and "Isometrric" to
"Isometric", and passes every other string through unchanged. -/
theorem view_fault_tolerance_spec :
    (∀ s, view_fault_tolerance (view_fault_tolerance s) = view_fault_tolerance s) ∧
    (∀ s, s ∈ (["Isometric", "Above", "Port", "Front", "Rear", "Below"] : List String) →
      view_fault_tolerance s = s) ∧
    view_fault_tolerance "Isometirc" = "Isometric" ∧
    view_fault_tolerance "Isometrric" = "Isometric" ∧
    (∀ s, s ≠ "Isometirc" → s ≠ "Isometrric" → view_fault_tolerance s = s) := by
  refine ⟨?_, ?_, by decide, by decide, ?_⟩
  · intro s
    by_cases h1 : s = "Isometirc"
    · subst h1; decide
    · by_cases h2 : s = "Isometrric"
      · subst h2; decide
      · simp [view_fault_tolerance, h1, h2]
  · intro s hs
    fin_cases hs <;> decide
  · intro s h1 h2
    simp [view_fault_tolerance, h1, h2]

/-- Claim C7 witness: the canonical token "Above" is returned unchanged. -/
theorem view_fault_tolerance_spec_witness :
    view_fault_tolerance "Above" = "Above" :=
  view_fault_tolerance_spec.2.1 "Above" (by decide)

/-- Claim C2 evaluation: at the failing input `destination = "out"`, the image
path `download_images` builds for a source URL is rooted at the hardcoded
`"data/images"`, not under the supplied destination. -/
theorem download_images_ignores_destination :
    download_images_image_path "out" "https://starcitizen.tools/4/4a/Avenger_Isometric.jpg"
      = "data/images/Avenger_Isometric.jpg" ∧
    str_starts_with "data/images/Avenger_Isometric.jpg" "out" = false := by
  constructor
  · rfl
  · rfl

theorem interleave_length {α : Type} : ∀ (xs ys : List α),
    (interleave xs ys).length = xs.length + ys.length
  | [], ys => by simp [interleave]
  | x :: xs, [] => by simp [interleave]
  | x :: xs, y :: ys => by
      simp [interleave, interleave_length xs ys]
      omega

theorem interleave_get?_even {α : Type} :
    ∀ (xs ys : List α), ys.length ≤ xs.length → xs.length ≤ ys.length + 1 →
      ∀ i, (interleave xs ys).get? (2 * i) = xs.get? i
  | [], ys, h1, _, i => by
      have hy : ys = [] := List.eq_nil_of_length_eq_zero (Nat.le_zero.mp h1)
      subst hy
      simp [interleave]
  | x :: xs, [], _, h2, i => by
      have hx : xs = [] := by
        cases xs with
        | nil => rfl
        | cons a l => simp at h2
      subst hx
      cases i with
      | zero => simp [interleave]
      | succ j =>
          have e : 2 * (j + 1) = (2 * j + 1) + 1 := by omega
          rw [e]
          simp [interleave]
  | x :: xs, y :: ys, h1, h2, i => by
      cases i with
      | zero => simp [interleave]
      | succ j =>
          have e : 2 * (j + 1) = (2 * j + 1) + 1 := by omega
          rw [e]
          have ih := interleave_get?_even xs ys (by simp at h1; omega)
            (by simp at h2; omega) j
          simpa [interleave] using ih

theorem interleave_get?_odd {α : Type} :
    ∀ (xs ys : List α), ys.length ≤ xs.length → xs.length ≤ ys.length + 1 →
      ∀ i, (interleave xs ys).get? (2 * i + 1) = ys.get? i
  | [], ys, h1, _, i => by
      have hy : ys = [] := List.eq_nil_of_length_eq_zero (Nat.le_zero.mp h1)
      subst hy
      simp [interleave]
  | x :: xs, [], _, h2, i => by
      have hx : xs = [] := by
        cases xs with
        | nil => rfl
        | cons a l => simp at h2
      subst hx
      cases i with
      | zero => simp [interleave]
      | succ j => simp [interleave]
  | x :: xs, y :: ys, h1, h2, i => by
      cases i with
      | zero => simp [interleave]
      | succ j =>
          have e : 2 * (j + 1) + 1 = (2 * j + 1 + 1) + 1 := by omega
          rw [e]
          have ih := interleave_get?_odd xs ys (by simp at h1; omega)
            (by simp at h2; omega) j
          simpa [interleave] using ih

/-- Claim C1 (amended): when the table holds N odd-class rows and either N or
N - 1 even-class rows, `extract_rows` returns the merged sequence of length
equal to the sum of both counts, with position 2i taken from the i-th odd row
and position 2i+1 from the i-th even row.  (With N + 1 even-class rows the
slice assignment raises ValueError instead; see the counterexample.) -/
theorem extract_rows_merged_alternation {α : Type} (odd_rows even_rows : List α)
    (h : even_rows.length = odd_rows.length ∨
      odd_rows.length = even_rows.length + 1) :
    extract_rows odd_rows even_rows = Except.ok (interleave odd_rows even_rows) ∧
    (interleave odd_rows even_rows).length = odd_rows.length + even_rows.length ∧
    (∀ i, (interleave odd_rows even_rows).get? (2 * i) = odd_rows.get? i) ∧
    (∀ i, (interleave odd_rows even_rows).get? (2 * i + 1) = even_rows.get? i) := by
  have h1 : even_rows.length ≤ odd_rows.length := by omega
  have h2 : odd_rows.length ≤ even_rows.length + 1 := by omega
  refine ⟨?_, interleave_length odd_rows even_rows, ?_, ?_⟩
  · have hc1 : odd_rows.length = (even_rows.length + odd_rows.length + 1) / 2 := by
      omega
    have hc2 : even_rows.length = (even_rows.length + odd_rows.length) / 2 := by
      omega
    simp only [extract_rows]
    rw [if_pos hc1, if_pos hc2]
  · exact interleave_get?_even odd_rows even_rows h1 h2
  · exact interleave_get?_odd odd_rows even_rows h1 h2

/-- Claim C1 witness: two odd rows and one even row merge to [10, 30, 20]. -/
theorem extract_rows_merged_alternation_witness :
    extract_rows [10, 20] [30] = Except.ok (interleave [10, 20] [30]) ∧
    (interleave [10, 20] ([30] : List Nat)).length = [10, 20].length + [30].length ∧
    (∀ i, (interleave [10, 20] ([30] : List Nat)).get? (2 * i) = [10, 20].get? i) ∧
    (∀ i, (interleave [10, 20] ([30] : List Nat)).get? (2 * i + 1) = [30].get? i) :=
  extract_rows_merged_alternation [10, 20] [30] (Or.inr rfl)

/-- Claim C1 counterexample: with one odd-class row and two even-class rows
(counts N and N + 1), the assignment `all_rows[::2] = odd_rows` targets two
slice positions but gets one element, so `extract_rows` raises ValueError
instead of merging. -/
theorem extract_rows_even_excess_raises :
    extract_rows [0] [1, 2] = (Except.error PyErr.valueError : Except PyErr (List Nat)) := by
  rfl

/-- Claim C9: `get_in_space_image_src` returns Python `None` exactly when the
"Ship profile" anchor is absent; with the anchor present, a failing later
structural step (missing sibling container, or no sub-panel whose title the
pattern matches) yields the empty list rather than an error. -/
theorem get_in_space_image_src_shape (page : ShipPage) :
    (get_in_space_image_src page = none ↔ page.shipProfileAnchor = false) ∧
    (page.shipProfileAnchor = true →
      (page.tableWrap = none ∨
        (∃ arts, page.tableWrap = some arts ∧ find_in_space_article arts = none)) →
      get_in_space_image_src page = some []) := by
  constructor
  · cases hA : page.shipProfileAnchor
    · simp [get_in_space_image_src, hA]
    · simp only [get_in_space_image_src, hA, if_true]
      cases hW : page.tableWrap with
      | none => simp
      | some arts => cases hF : find_in_space_article arts <;> simp [hF]
  · intro hA hS
    rcases hS with hW | ⟨arts, hW, hF⟩
    · simp [get_in_space_image_src, hA, hW]
    · simp [get_in_space_image_src, hA, hW, hF]

/-- Claim C9 witness: a page carrying the anchor but lacking the sibling
container yields the empty image list. -/
theorem get_in_space_image_src_shape_witness :
    get_in_space_image_src ⟨true, none⟩ = some [] :=
  (get_in_space_image_src_shape ⟨true, none⟩).2 rfl (Or.inl rfl)

/-- Claim C3 counterexample: the pattern `In[\s|-]space` is compiled without
IGNORECASE, so the lowercase title "in-space" is not matched and the locator
returns no images for a page whose in-space panel is titled that way. -/
theorem in_space_lookup_misses_lowercase :
    inSpaceSearch "in-space" = false ∧
    get_in_space_image_src
        ⟨true, some [⟨"in-space", [⟨"/media/Avenger_Front.jpg"⟩]⟩]⟩ = some [] := by
  constructor <;> rfl

/-- Claim C3 (amended): the sub-panel lookup is separator-insensitive but
case-SENSITIVE: a title containing "In", then one separator from Python's
whitespace class or a literal '|' or '-', then "space" (in exactly this
casing) is matched, and the locator returns that sub-panel's figure sources;
other casings such as "in-space" are missed (see the counterexample). -/
theorem in_space_lookup_separator_tolerant (c : Char) (hc : inSpaceSep c = true)
    (pre post : List Char) (figs : List Figure) :
    get_in_space_image_src
        ⟨true,
          some [⟨String.mk (pre ++ 'I' :: 'n' :: c :: 's' :: 'p' :: 'a' :: 'c' :: 'e' :: post),
            figs⟩]⟩
      = some (figs.map Figure.src) := by
  have hsearch : inSpaceSearch
      (String.mk (pre ++ 'I' :: 'n' :: c :: 's' :: 'p' :: 'a' :: 'c' :: 'e' :: post)) = true := by
    unfold inSpaceSearch
    rw [List.any_eq_true]
    refine ⟨'I' :: 'n' :: c :: 's' :: 'p' :: 'a' :: 'c' :: 'e' :: post, ?_, ?_⟩
    · exact (List.mem_tails _ _).mpr (List.suffix_append pre _)
    · simp [matchInSpaceAt, hc]
  simp [get_in_space_image_src, find_in_space_article, List.find?, hsearch]

/-- Claim C3 witness: a panel titled "In-space" with one figure is found and
its resolved source returned. -/
theorem in_space_lookup_separator_tolerant_witness :
    inSpaceSep '-' = true ∧
    get_in_space_image_src
        ⟨true,
          some [⟨String.mk ([] ++ 'I' :: 'n' :: '-' :: 's' :: 'p' :: 'a' :: 'c' :: 'e' :: []),
            [⟨"/media/A.jpg"⟩]⟩]⟩
      = some (([⟨"/media/A.jpg"⟩] : List Figure).map Figure.src) :=
  ⟨rfl, in_space_lookup_separator_tolerant '-' rfl [] [] [⟨"/media/A.jpg"⟩]⟩

/-- Claim C4 counterexample: "Name" lies outside the six canonical view
tokens and typo correction leaves it alone, yet record assembly accepts it
without raising, storing the filename into the key column. -/
theorem store_image_view_accepts_name :
    view_fault_tolerance "Name" = "Name" ∧
    ("Name" : String) ∉ (["Isometric", "Above", "Port", "Front", "Rear", "Below"] : List String) ∧
    store_image_view ⟨some "Avenger", none, none, none, none, none, none⟩ "Name" "Name.jpg"
      = Except.ok ⟨some "Name.jpg", none, none, none, none, none, none⟩ :=
  ⟨rfl, by decide, rfl⟩

/-- Claim C4 (amended): after typo correction, record assembly accepts the six
canonical view tokens and additionally the literal key "Name" (stored into the
ship-key column, silently overwriting it); each of the six is stored under its
own category; every other token raises KeyError, aborting the run. -/
theorem store_image_view_cases (r : ImgRecord) (view fname : String) :
    (view = "Isometric" →
      store_image_view r view fname = Except.ok { r with isometric := some fname }) ∧
    (view = "Above" →
      store_image_view r view fname = Except.ok { r with above := some fname }) ∧
    (view = "Port" →
      store_image_view r view fname = Except.ok { r with port := some fname }) ∧
    (view = "Front" →
      store_image_view r view fname = Except.ok { r with front := some fname }) ∧
    (view = "Rear" →
      store_image_view r view fname = Except.ok { r with rear := some fname }) ∧
    (view = "Below" →
      store_image_view r view fname = Except.ok { r with below := some fname }) ∧
    (view = "Name" →
      store_image_view r view fname = Except.ok { r with name := some fname }) ∧
    (view ∉ (["Name", "Isometric", "Above", "Port", "Front", "Rear", "Below"] : List String) →
      store_image_view r view fname = Except.error PyErr.keyError) := by
  refine ⟨?_, ?_, ?_, ?_, ?_, ?_, ?_, ?_⟩
  · intro h; subst h; rfl
  · intro h; subst h; rfl
  · intro h; subst h; rfl
  · intro h; subst h; rfl
  · intro h; subst h; rfl
  · intro h; subst h; rfl
  · intro h; subst h; rfl
  · intro h
    simp only [List.mem_cons, List.not_mem_nil, or_false, not_or] at h
    obtain ⟨h1, h2, h3, h4, h5, h6, h7⟩ := h
    simp [store_image_view, h1, h2, h3, h4, h5, h6, h7]

/-- Claim C4 witness: the unknown token "Gremlin" raises KeyError. -/
theorem store_image_view_cases_witness :
    store_image_view ⟨some "Avenger", none, none, none, none, none, none⟩ "Gremlin" "G.jpg"
      = Except.error PyErr.keyError :=
  (store_image_view_cases ⟨some "Avenger", none, none, none, none, none, none⟩
    "Gremlin" "G.jpg").2.2.2.2.2.2.2 (by decide)

/-- Claim C10: processing an image source whose filename's trailing letter
token is "Name" raises nothing: the filename is silently stored into the
record's Name key column, overwriting the ship key, and the file is
fetched. -/
theorem process_image_name_token_overwrites_key :
    process_image ⟨some "Avenger", none, none, none, none, none, none⟩ "out"
        "https://starcitizen.tools/4/4a/Name.jpg" true false
      = Except.ok (⟨some "Name.jpg", none, none, none, none, none, none⟩, 1) := by
  rfl

/-- Claim C8: download gating: with overwrite off and the file already present
at the target path, processing an image performs zero fetches, whatever the
outcome; with overwrite on, every image that classifies successfully is
fetched whether or not the file exists. -/
theorem process_image_download_gating :
    (∀ (r : ImgRecord) (dest src : String) (r2 : ImgRecord) (n : Nat),
      process_image r dest src false true = Except.ok (r2, n) → n = 0) ∧
    (∀ (r : ImgRecord) (dest src m : String) (fe : Bool) (r2 : ImgRecord) (n : Nat),
      viewToken (download_images_image_path dest src) = some m →
      process_image r dest src true fe = Except.ok (r2, n) → n = 1) := by
  constructor
  · intro r dest src r2 n h
    simp only [process_image] at h
    split at h
    · simp only [Except.ok.injEq, Prod.mk.injEq] at h
      exact h.2.symm
    · split at h
      · exact absurd h (by simp)
      · simp [should_download] at h
        omega
  · intro r dest src m fe r2 n hv h
    simp only [process_image] at h
    split at h
    · rename_i heq
      rw [hv] at heq
      exact absurd heq (by simp)
    · split at h
      · exact absurd h (by simp)
      · simp [should_download] at h
        omega

/-- Claim C8 witness: an existing "Above" image is not refetched without
overwrite, and is refetched with overwrite. -/
theorem process_image_download_gating_witness : (0 : Nat) = 0 ∧ (1 : Nat) = 1 :=
  ⟨process_image_download_gating.1 ⟨some "Avenger", none, none, none, none, none, none⟩
      "out" "https://starcitizen.tools/4/4a/Above.jpg"
      ⟨some "Avenger", none, some "Above.jpg", none, none, none, none⟩ 0 rfl,
   process_image_download_gating.2 ⟨some "Avenger", none, none, none, none, none, none⟩
      "out" "https://starcitizen.tools/4/4a/Above.jpg" "Above" true
      ⟨some "Avenger", none, some "Above.jpg", none, none, none, none⟩ 1 rfl rfl⟩

/-- Claim C5: for the optional numeric fields (Max speed, SCM speed, 0-SCM
time), a present cell lacking the data-sort-value attribute yields the
sentinel -1 without raising. -/
theorem optional_numeric_missing_attr (r : ShipRow) (t : Td) (h : t.sortValue = none) :
    (r.maxSpeed = some t → extract_cell_Max_speed r = Except.ok (-1)) ∧
    (r.scmSpeed = some t → extract_cell_SCM_speed r = Except.ok (-1)) ∧
    (r.zeroScmTime = some t → extract_cell_0_SCM_time r = Except.ok (-1)) := by
  refine ⟨?_, ?_, ?_⟩ <;> intro hm <;>
    simp [extract_cell_Max_speed, extract_cell_SCM_speed, extract_cell_0_SCM_time,
      getSortValue, hm, h]

/-- Claim C5 witness: a row whose three optional cells all lack the attribute
yields -1 three times. -/
theorem optional_numeric_missing_attr_witness :
    extract_cell_Max_speed ⟨none, none, none, some ⟨none⟩, some ⟨none⟩, some ⟨none⟩⟩
      = Except.ok (-1) ∧
    extract_cell_SCM_speed ⟨none, none, none, some ⟨none⟩, some ⟨none⟩, some ⟨none⟩⟩
      = Except.ok (-1) ∧
    extract_cell_0_SCM_time ⟨none, none, none, some ⟨none⟩, some ⟨none⟩, some ⟨none⟩⟩
      = Except.ok (-1) :=
  ⟨(optional_numeric_missing_attr _ ⟨none⟩ rfl).1 rfl,
   (optional_numeric_missing_attr _ ⟨none⟩ rfl).2.1 rfl,
   (optional_numeric_missing_attr _ ⟨none⟩ rfl).2.2 rfl⟩

/-- Claim C6: for the required numeric fields (Length, Width, Height), a
present cell lacking the data-sort-value attribute raises KeyError with no
fallback; a present attribute is handed to float parsing. -/
theorem required_numeric_attr (r : ShipRow) (t : Td) :
    (t.sortValue = none →
      (r.length = some t → extract_cell_Length r = Except.error PyErr.keyError) ∧
      (r.width = some t → extract_cell_Width r = Except.error PyErr.keyError) ∧
      (r.height = some t → extract_cell_Height r = Except.error PyErr.keyError)) ∧
    (∀ s, t.sortValue = some s →
      (r.length = some t → extract_cell_Length r = parse_float s) ∧
      (r.width = some t → extract_cell_Width r = parse_float s) ∧
      (r.height = some t → extract_cell_Height r = parse_float s)) := by
  constructor
  · intro h
    refine ⟨?_, ?_, ?_⟩ <;> intro hm <;>
      simp [extract_cell_Length, extract_cell_Width, extract_cell_Height,
        getSortValue, hm, h]
  · intro s h
    refine ⟨?_, ?_, ?_⟩ <;> intro hm <;>
      simp [extract_cell_Length, extract_cell_Width, extract_cell_Height,
        getSortValue, hm, h]

/-- Claim C6 witness: a Length cell without the attribute raises KeyError; one
carrying "12.5" yields the float-parsed value. -/
theorem required_numeric_attr_witness :
    extract_cell_Length ⟨some ⟨none⟩, none, none, none, none, none⟩
      = Except.error PyErr.keyError ∧
    extract_cell_Length ⟨some ⟨some "12.5"⟩, none, none, none, none, none⟩
      = parse_float "12.5" :=
  ⟨((required_numeric_attr ⟨some ⟨none⟩, none, none, none, none, none⟩ ⟨none⟩).1 rfl).1 rfl,
   ((required_numeric_attr ⟨some ⟨some "12.5"⟩, none, none, none, none, none⟩
      ⟨some "12.5"⟩).2 "12.5" rfl).1 rfl⟩
